import Mathlib

/-!
# Verification of `incident_bundle.py`

A shallow embedding of the incident-diagnostics collector
(`src/incident_bundle.py`) together with proofs about its behaviour.

Modelling conventions:

* Python strings become Lean `String`s; the character-level operations
  (`str.strip`, `str.lstrip("/")`, `str.lower`, `str.splitlines`,
  `re.sub`, `shlex.quote`) are embedded as executable functions over
  `List Char` below, each annotated with the Python operation it models.
* The external world (subprocess results, connectivity probe outcome,
  directory-creation success, archive-creation success) is an explicit
  oracle record `Env`; `collect_bundle` is a pure function of the parsed
  arguments and this oracle.  Wall-clock readings only feed
  duration fields, modelled by the `duration` oracle.
* Filesystem writes are recorded as observable outputs
  (`manifestWrites`, `artifacts`, `executed`) instead of performed.
* Timestamp strings (`started_at`, `finished_at`) and the collector
  hostname are opaque environment metadata with no control-flow role and
  are omitted from the manifest model.
-/

namespace IncidentBundle

/-! ## Character classes (ASCII-accurate models of the Python predicates) -/

/-- Characters of the class `[A-Za-z0-9_.-]` used by
`re.sub(r"[^A-Za-z0-9_.-]+", "_", ...)` in `sanitize_target` and
`safe_file_name`. -/
def isWordChar (c : Char) : Bool :=
  (65 ≤ c.toNat && c.toNat ≤ 90) || (97 ≤ c.toNat && c.toNat ≤ 122) ||
  (48 ≤ c.toNat && c.toNat ≤ 57) || c.toNat = 95 || c.toNat = 46 || c.toNat = 45

/-- Python `str.isspace` (the set stripped by `str.strip()`):
space, `\t\n\v\f\r`, `\x1c`–`\x1f`, NEL, NBSP, and the Unicode space
separators. -/
def isPySpace (c : Char) : Bool :=
  c.toNat = 32 || (9 ≤ c.toNat && c.toNat ≤ 13) || (28 ≤ c.toNat && c.toNat ≤ 31) ||
  c.toNat = 0x85 || c.toNat = 0xa0 || c.toNat = 0x1680 ||
  (0x2000 ≤ c.toNat && c.toNat ≤ 0x200a) ||
  c.toNat = 0x2028 || c.toNat = 0x2029 || c.toNat = 0x202f ||
  c.toNat = 0x205f || c.toNat = 0x3000

/-- Line boundaries recognised by Python `str.splitlines`. -/
def isLineBreak (c : Char) : Bool :=
  c.toNat = 10 || c.toNat = 13 || c.toNat = 11 || c.toNat = 12 ||
  c.toNat = 28 || c.toNat = 29 || c.toNat = 30 ||
  c.toNat = 0x85 || c.toNat = 0x2028 || c.toNat = 0x2029

/-- The characters `shlex.quote` leaves unquoted (its `_find_unsafe`
regex, ASCII): the letters, digits, underscore, `@ % + = : , .`, the
slash, and the hyphen. -/
def isSafeShellChar (c : Char) : Bool :=
  (65 ≤ c.toNat && c.toNat ≤ 90) || (97 ≤ c.toNat && c.toNat ≤ 122) ||
  (48 ≤ c.toNat && c.toNat ≤ 57) || c.toNat = 95 || c.toNat = 64 ||
  c.toNat = 37 || c.toNat = 43 || c.toNat = 61 || c.toNat = 58 ||
  c.toNat = 44 || c.toNat = 46 || c.toNat = 47 || c.toNat = 45

/-! ## Python string helpers -/

/-- `str.strip()` at the list level: drop leading and trailing whitespace. -/
def pyStripList (cs : List Char) : List Char :=
  ((cs.dropWhile isPySpace).reverse.dropWhile isPySpace).reverse

/-- Python `str.strip()`. -/
def pyStrip (s : String) : String :=
  String.mk (pyStripList s.data)

/-- Python `s.lower()` restricted to ASCII (every character this program
lowercases is an ASCII state word). -/
def asciiLower (c : Char) : Char :=
  if 65 ≤ c.toNat ∧ c.toNat ≤ 90 then Char.ofNat (c.toNat + 32) else c

/-- Python `str.lower` (ASCII model). -/
def pyLower (s : String) : String :=
  String.mk (s.data.map asciiLower)

/-- Python `s.splitlines()[0]` for a string with a non-blank first
character: the prefix before the first line boundary. -/
def firstLine (s : String) : String :=
  String.mk (s.data.takeWhile (fun c => !isLineBreak c))

/-- Python `a or b` on strings: `a` when non-empty, else `b`. -/
def pyOr (a b : String) : String :=
  if a = "" then b else a

/-! ## `shlex.quote` and a conservative POSIX word lexer -/

/-- Replacement `s.replace("'", "'\"'\"'")` performed inside
`shlex.quote`, one character at a time. -/
def quoteRepl (c : Char) : List Char :=
  if c = '\'' then ['\'', '"', '\'', '"', '\''] else [c]

/-- Python `shlex.quote`: empty strings become `''`; strings made of
safe characters pass through; anything else is wrapped in single quotes
with embedded single quotes re-escaped. -/
def shlexQuote (s : String) : String :=
  if s = "" then "''"
  else if s.data.all isSafeShellChar then s
  else "'" ++ String.mk ((s.data.map quoteRepl).flatten) ++ "'"

/-- Lexer state: outside quotes, inside single quotes, inside double
quotes. -/
inductive LexMode where
  | norm
  | sq
  | dq
deriving DecidableEq

/-- A conservative POSIX shell word lexer.  It accepts only text whose
meaning is unambiguous: unquoted characters must come from the
`shlex.quote` safe set (anything else — operators, globs, expansions —
is rejected with `none`), single-quoted text is literal, and
double-quoted text is literal except that `$`, a backquote, or a
backslash (the expansion characters that stay live inside double
quotes) are rejected.  `some ws` therefore means the input parses as
exactly the word list `ws`, with every character taken literally. -/
def lexAux : List Char → LexMode → List Char → Bool → List String → Option (List String)
  | [], .norm, acc, started, words =>
      some (words ++ if started then [String.mk acc] else [])
  | [], .sq, _, _, _ => none
  | [], .dq, _, _, _ => none
  | c :: rest, .norm, acc, started, words =>
      if c = ' ' || c = '\t' then
        if started then lexAux rest .norm [] false (words ++ [String.mk acc])
        else lexAux rest .norm [] false words
      else if c = '\'' then lexAux rest .sq acc true words
      else if c = '"' then lexAux rest .dq acc true words
      else if isSafeShellChar c then lexAux rest .norm (acc ++ [c]) true words
      else none
  | c :: rest, .sq, acc, started, words =>
      if c = '\'' then lexAux rest .norm acc started words
      else lexAux rest .sq (acc ++ [c]) started words
  | c :: rest, .dq, acc, started, words =>
      if c = '"' then lexAux rest .norm acc started words
      else if c = '$' || c = '`' || c = '\\' then none
      else lexAux rest .dq (acc ++ [c]) started words

/-- Run the conservative shell word lexer on a whole string. -/
def shellLex (s : String) : Option (List String) :=
  lexAux s.data .norm [] false []

/-! ## Data model (from `incident_bundle.py`) -/

/-- `CmdResult` dataclass: the outcome of one executed command. -/
structure CmdResult where
  name : String
  command : String
  returncode : Int
  stdout : String
  stderr : String
  duration_ms : Nat
deriving DecidableEq, Repr, Inhabited

/-- `CmdResult.ok` property. -/
def CmdResult.ok (r : CmdResult) : Bool :=
  r.returncode = 0

/-- One entry of the manifest's `command_results` list. -/
structure CmdSummary where
  name : String
  command : String
  returncode : Int
  duration_ms : Nat
  stdout_bytes : Nat
  stderr_bytes : Nat
deriving DecidableEq, Repr, Inhabited

/-- One entry of the manifest's `included_files` list. -/
structure IncludeItem where
  path : String
  collected : Bool
  reason : String
deriving DecidableEq, Repr, Inhabited

/-- The manifest fields with control-flow or claim relevance
(timestamps, `duration_ms`, and `collector_host` are opaque environment
metadata and are omitted). -/
structure Manifest where
  target : String
  mode : String
  service : Option String
  since : String
  command_results : List CmdSummary
  included_files : List IncludeItem
  overall_status : String
deriving DecidableEq, Repr, Inhabited

/-- Parsed command-line arguments (`parse_args`).  An absent `--host`,
`--user`, or `--identity` is the empty string, matching the falsy test
the code applies to them.  The `--include` value is `include_arg`. -/
structure Args where
  mode : String
  host : String
  user : String
  port_ssh : Int
  identity : String
  service : String
  since : String
  out : String
  include_arg : String
deriving DecidableEq, Repr, Inhabited

/-- Result of one `subprocess.run` of a target command: it either
completed (any exit code) or hit the timeout, in which case Python hands
back the partial streams (possibly `None`). -/
inductive ProcOutcome where
  | completed (returncode : Int) (stdout stderr : String)
  | timedOut (stdout stderr : Option String)
deriving DecidableEq, Repr, Inhabited

/-- Result of the `check_ssh_connectivity` probe process: a completed
`ssh ... true`, or a `TimeoutExpired`/`OSError` carrying its message. -/
inductive ProbeOutcome where
  | completed (returncode : Int) (stdout stderr : String)
  | error (msg : String)
deriving DecidableEq, Repr, Inhabited

/-- The external world of one run: an oracle for every effect the code
observes.  `exec` maps the exact argv and timeout handed to
`subprocess.run` to its outcome, `duration` supplies the wall-clock
milliseconds recorded for it, `probe` is the connectivity-check process,
`layoutOk` tells whether `make_bundle_layout` succeeds (a
`FileExistsError` collision and any other `OSError` both count as
failure), and `archiveOk` tells whether `tarfile` archive creation
succeeds. -/
structure Env where
  probe : ProbeOutcome
  layoutOk : Bool
  exec : List String → Nat → ProcOutcome
  duration : List String → Nat
  archiveOk : Bool

/-! ## Source functions -/

/-- `as_text`: `None` becomes `""`, text passes through (the bytes case
decodes to text and is modelled as text). -/
def as_text : Option String → String
  | none => ""
  | some s => s

/-- The substitution `re.sub(r"[^A-Za-z0-9_.-]+", "_", ...)` used by
`sanitize_target` and `safe_file_name`: each maximal run of characters
outside the class becomes one underscore.  The flag records whether the
previous character was part of such a run (so the run has already
emitted its underscore). -/
def collapseUnsafe : List Char → Bool → List Char
  | [], _ => []
  | c :: rest, prevBad =>
      if isWordChar c then c :: collapseUnsafe rest false
      else if prevBad then collapseUnsafe rest true
      else '_' :: collapseUnsafe rest true

/-- `sanitize_target(raw)`. -/
def sanitize_target (raw : String) : String :=
  let collapsed := collapseUnsafe raw.data false
  let stripped := ((collapsed.dropWhile (· = '_')).reverse.dropWhile (· = '_')).reverse
  if stripped.isEmpty then "target" else String.mk stripped

/-- `build_ssh_base(args)`. -/
def build_ssh_base (args : Args) : List String :=
  let target := if args.user ≠ "" then args.user ++ "@" ++ args.host else args.host
  ["ssh", "-o", "BatchMode=yes", "-o", "ConnectTimeout=5", "-p", toString args.port_ssh]
    ++ (if args.identity ≠ "" then ["-i", args.identity] else [])
    ++ [target]

/-- The argv `run_target` hands to `subprocess.run` for a command. -/
def full_command (args : Args) (command : String) : List String :=
  if args.mode = "local" then ["bash", "-lc", command]
  else build_ssh_base args ++ ["bash", "-lc", command]

/-- `run_target(args, command, timeout)`: run via the `Env` oracle; a
completed process passes its streams through, a timeout becomes exit
code 124 with partial stdout preserved and the timeout note appended to
stderr.  (`subprocess.TimeoutExpired` is the only exception caught.) -/
def run_target (args : Args) (env : Env) (command : String) (timeout : Nat) : CmdResult :=
  let argv := full_command args command
  match env.exec argv timeout with
  | .completed rc out err =>
      { name := "", command := command, returncode := rc, stdout := out, stderr := err,
        duration_ms := env.duration argv }
  | .timedOut out err =>
      { name := "", command := command, returncode := 124, stdout := as_text out,
        stderr := as_text err ++ "\nTimed out after " ++ toString timeout ++ "s",
        duration_ms := env.duration argv }

/-- Python `raw.split(",")` at the list level: split on every comma,
keeping empty pieces (`"".split(",") == [""]`). -/
def pySplitComma : List Char → List (List Char)
  | [] => [[]]
  | c :: rest =>
      match pySplitComma rest with
      | [] => [[c]]
      | w :: ws => if c = ',' then [] :: w :: ws else (c :: w) :: ws

/-- `include_paths(raw)`: split on commas, trim whitespace, drop empty
entries. -/
def include_paths (raw : String) : List String :=
  (((pySplitComma raw.data).map (fun w => pyStrip (String.mk w))).filter (· ≠ ""))

/-- `safe_file_name(src_path)`: `strip()` whitespace, `lstrip("/")` all
leading slashes, replace each remaining `/` with `__`, collapse each run
of characters outside `[A-Za-z0-9_.-]` to a single `_` (the regex
substitution), with fallback `"unknown_path"`. -/
def safe_file_name (src_path : String) : String :=
  let cleaned := (pyStripList src_path.data).dropWhile (· = '/')
  let cleaned := (cleaned.map (fun c => if c = '/' then ['_', '_'] else [c])).flatten
  let cleaned := collapseUnsafe cleaned false
  if cleaned.isEmpty then "unknown_path" else String.mk cleaned

/-- `check_ssh_connectivity(args)`: a caught `TimeoutExpired`/`OSError`
fails with its message; a non-zero exit fails with
`(stderr or stdout or "ssh failed").strip()`; otherwise succeeds. -/
def check_ssh_connectivity (env : Env) : Bool × String :=
  match env.probe with
  | .error msg => (false, msg)
  | .completed rc out err =>
      if rc ≠ 0 then (false, pyStrip (pyOr err (pyOr out "ssh failed")))
      else (true, "")

/-- `build_commands(service, since)`. -/
def build_commands (service : String) (since : String) : List (String × String) :=
  let q_since := shlexQuote since
  let commands := [
    ("hostnamectl", "hostnamectl"),
    ("date_iso", "date -Is"),
    ("uptime", "uptime"),
    ("journal_errors", "journalctl -p err --since " ++ q_since ++ " --no-pager"),
    ("dmesg_tail", "dmesg -T | tail -n 400"),
    ("ss_tulpen", "ss -tulpen"),
    ("df_h", "df -h"),
    ("df_i", "df -i"),
    ("free_m", "free -m")]
  if service ≠ "" then
    commands ++ [
      ("journal_service",
        "journalctl -u " ++ shlexQuote service ++ " --since " ++ q_since ++ " --no-pager"),
      ("systemctl_status", "systemctl status " ++ shlexQuote service ++ " --no-pager"),
      ("systemctl_show",
        "systemctl show " ++ shlexQuote service ++
        " -p ActiveState,SubState,ExecMainStatus,ExecMainStartTimestamp")]
  else commands

/-- The probe command built for one include path (`check_cmd` in
`collect_bundle`). -/
def probe_command (file_path : String) : String :=
  let q := shlexQuote file_path
  "if [ -e " ++ q ++ " ]; then " ++
  "if [ -r " ++ q ++ " ]; then echo READABLE; else echo UNREADABLE; fi; " ++
  "else echo MISSING; fi"

/-- The fetch command built for one include path. -/
def fetch_command (file_path : String) : String :=
  "cat " ++ shlexQuote file_path

/-- What processing one include path produced: its manifest entry, the
artifact written under `files/` (name and contents) when collected, and
the trace of commands run for it. -/
structure IncludeStep where
  item : IncludeItem
  artifact : Option (String × String)
  ran : List String
deriving Repr

/-- The body of the include-file loop in `collect_bundle` for one path:
probe the path, dispatch on the probe's exit code and first stdout line
(`(stdout.strip() or "UNKNOWN").splitlines()[0]`), fetch when readable,
and produce the manifest entry plus any artifact. -/
def process_include (args : Args) (env : Env) (file_path : String) : IncludeStep :=
  let check_res := run_target args env (probe_command file_path) 20
  let stripped := pyStrip check_res.stdout
  let state := firstLine (if stripped ≠ "" then stripped else "UNKNOWN")
  if check_res.returncode ≠ 0 ∨ state = "UNKNOWN" then
    { item := { path := file_path, collected := false,
                reason := pyOr (pyStrip check_res.stderr) "cannot inspect file" },
      artifact := none, ran := [probe_command file_path] }
  else if state ≠ "READABLE" then
    { item := { path := file_path, collected := false, reason := pyLower state },
      artifact := none, ran := [probe_command file_path] }
  else
    let cat_res := run_target args env (fetch_command file_path) 30
    if cat_res.returncode ≠ 0 then
      { item := { path := file_path, collected := false,
                  reason := pyOr (pyStrip cat_res.stderr) "cat failed" },
        artifact := none, ran := [probe_command file_path, fetch_command file_path] }
    else
      { item := { path := file_path, collected := true, reason := "" },
        artifact := some (safe_file_name file_path ++ ".txt", cat_res.stdout),
        ran := [probe_command file_path, fetch_command file_path] }

/-- The catalog loop: each catalog entry with the `CmdResult` its
execution produced (default timeout 60). -/
def catalog_runs (args : Args) (env : Env) : List (String × String × CmdResult) :=
  (build_commands args.service args.since).map
    (fun nc => (nc.1, nc.2, run_target args env nc.2 60))

/-- The `command_results` manifest entries built in the catalog loop. -/
def command_summaries (args : Args) (env : Env) : List CmdSummary :=
  (catalog_runs args env).map
    (fun t => { name := t.1, command := t.2.1, returncode := t.2.2.returncode,
                duration_ms := t.2.2.duration_ms,
                stdout_bytes := t.2.2.stdout.utf8ByteSize,
                stderr_bytes := t.2.2.stderr.utf8ByteSize })

/-- The include-file loop over `include_paths(args.include)`. -/
def include_steps (args : Args) (env : Env) : List IncludeStep :=
  (include_paths args.include_arg).map (process_include args env)

/-- The `any_failures` flag at the end of both loops: set by each
command whose result is not ok and by each include path whose entry is
not collected, and by nothing else. -/
def run_any_failures (args : Args) (env : Env) : Bool :=
  (catalog_runs args env).any (fun t => t.2.2.returncode != 0) ||
  (include_steps args env).any (fun st => !st.item.collected)

/-- `target_display`. -/
def target_display (args : Args) : String :=
  if args.mode = "local" then "local"
  else if args.host ≠ "" then args.host else "unknown"

/-- The manifest assembled at the end of a run, before archiving. -/
def run_manifest (args : Args) (env : Env) : Manifest :=
  { target := target_display args,
    mode := args.mode,
    service := if args.service = "" then none else some args.service,
    since := args.since,
    command_results := command_summaries args env,
    included_files := (include_steps args env).map (fun st => st.item),
    overall_status := if run_any_failures args env then "partial" else "ok" }

/-- Everything one run observably did: the returned exit code, whether
the connectivity probe ran, every command handed to `run_target` in
order, whether the bundle layout was created, every write of
`manifest.json` in order, every artifact written under `files/`, and
whether the archive was created. -/
structure RunOutcome where
  exit : Nat
  sshProbed : Bool
  executed : List String
  layoutCreated : Bool
  manifestWrites : List Manifest
  artifacts : List (String × String)
  archiveCreated : Bool
deriving Repr

/-- An outcome in which nothing has happened yet, carrying exit code
`e`. -/
def bailOutcome (e : Nat) : RunOutcome :=
  { exit := e, sshProbed := false, executed := [], layoutCreated := false,
    manifestWrites := [], artifacts := [], archiveCreated := false }

/-- `collect_bundle(args)`: the full run.  Early fatal exits (missing
`--host` in ssh mode, failed connectivity probe, failed bundle-layout
creation) return 2 before anything runs; then both loops execute, the
manifest is written with status `ok`/`partial`, and archiving either
succeeds (exit reflects `any_failures`) or fails (manifest rewritten
with status `error`, exit 2). -/
def collect_bundle (args : Args) (env : Env) : RunOutcome :=
  if args.mode = "ssh" ∧ args.host = "" then bailOutcome 2
  else if args.mode = "ssh" ∧ (check_ssh_connectivity env).1 = false then
    { bailOutcome 2 with sshProbed := true }
  else if env.layoutOk = false then
    { bailOutcome 2 with sshProbed := args.mode = "ssh" }
  else
    let m := run_manifest args env
    let base : RunOutcome :=
      { exit := 0,
        sshProbed := args.mode = "ssh",
        executed := (catalog_runs args env).map (fun t => t.2.1) ++
          ((include_steps args env).map (fun st => st.ran)).flatten,
        layoutCreated := true,
        manifestWrites := [m],
        artifacts := (include_steps args env).filterMap (fun st => st.artifact),
        archiveCreated := env.archiveOk }
    if env.archiveOk then
      { base with exit := if run_any_failures args env then 1 else 0 }
    else
      { base with
        exit := 2
        manifestWrites := [m, { m with overall_status := "error" }] }

/-- `main()`: reject an out-of-range `--port-ssh` with exit 2 before
anything else, otherwise run `collect_bundle`. -/
def main_model (args : Args) (env : Env) : RunOutcome :=
  if args.port_ssh < 1 ∨ args.port_ssh > 65535 then bailOutcome 2
  else collect_bundle args env

/-! ## Spec-side predicates and alternative renderings -/

/-- Every executed catalog command recorded in the manifest returned
exit code 0. -/
abbrev allCommandsOk (m : Manifest) : Prop :=
  ∀ c ∈ m.command_results, c.returncode = 0

/-- Every requested include-file recorded in the manifest was
collected. -/
abbrev allFilesCollected (m : Manifest) : Prop :=
  ∀ f ∈ m.included_files, f.collected = true

/-- The sanitization algorithm exactly as the claim words it: strip a
single leading path separator, replace every remaining separator with a
double underscore, replace every character outside `[A-Za-z0-9_.-]`
with an underscore, and fall back to the fixed placeholder when the
result is empty. -/
def safe_file_name_claim (src_path : String) : String :=
  let cs := match src_path.data with
    | '/' :: rest => rest
    | other => other
  let cs := (cs.map (fun c => if c = '/' then ['_', '_'] else [c])).flatten
  let cs := cs.map (fun c => if isWordChar c then c else '_')
  if cs.isEmpty then "unknown_path" else String.mk cs

/-- The regex run collapse written independently, recursing on whole
maximal runs at once: a run of characters outside the class is dropped
in one step and contributes a single underscore. -/
def collapseRuns : List Char → List Char
  | [] => []
  | c :: rest =>
      if isWordChar c then c :: collapseRuns rest
      else '_' :: collapseRuns (rest.dropWhile (fun d => !isWordChar d))
termination_by cs => cs.length
decreasing_by
  all_goals simp only [List.length_cons]
  all_goals have h : (rest.dropWhile (fun d => !isWordChar d)).length ≤ rest.length :=
    (List.dropWhile_sublist _).length_le
  all_goals omega

/-- The sanitization algorithm as the amended claim words it: trim
surrounding whitespace, strip every leading path separator, replace
each remaining separator with a double underscore, replace each maximal
run of characters outside `[A-Za-z0-9_.-]` with a single underscore,
and fall back to the fixed placeholder when the result is empty. -/
def safe_file_name_amended (src_path : String) : String :=
  let cleaned := (pyStripList src_path.data).dropWhile (· = '/')
  let cleaned := (cleaned.map (fun c => if c = '/' then ['_', '_'] else [c])).flatten
  let cleaned := collapseRuns cleaned
  if cleaned.isEmpty then "unknown_path" else String.mk cleaned

/-! ## Concrete fixtures used to instantiate the theorems -/

/-- A local-mode argument set requesting one include file. -/
def argsLocal : Args :=
  { mode := "local", host := "", user := "", port_ssh := 22, identity := "",
    service := "", since := "2h", out := "./bundles", include_arg := "/etc/hostname" }

/-- An environment in which every process succeeds: the include probe
reports `READABLE`, the fetch returns file contents, every catalog
command exits 0, and layout and archive creation succeed. -/
def envAllOk : Env :=
  { probe := .completed 0 "" "",
    layoutOk := true,
    exec := fun argv _ =>
      if argv.getLast? = some (probe_command "/etc/hostname") then
        .completed 0 "READABLE\n" ""
      else if argv.getLast? = some (fetch_command "/etc/hostname") then
        .completed 0 "myhost\n" ""
      else .completed 0 "" "",
    duration := fun _ => 1,
    archiveOk := true }

/-- An environment whose every command execution times out with partial
streams. -/
def envTimeout : Env :=
  { probe := .completed 0 "" "",
    layoutOk := true,
    exec := fun _ _ => .timedOut (some "partial out") (some "partial err"),
    duration := fun _ => 7,
    archiveOk := true }

/-- An environment whose include probe exits 0 but prints an
unrecognized state word. -/
def envGarbageProbe : Env :=
  { probe := .completed 0 "" "",
    layoutOk := true,
    exec := fun _ _ => .completed 0 "GARBAGE\n" "",
    duration := fun _ => 1,
    archiveOk := true }

/-- An environment whose include probe reports `MISSING`. -/
def envMissingProbe : Env :=
  { probe := .completed 0 "" "",
    layoutOk := true,
    exec := fun _ _ => .completed 0 "MISSING\n" "",
    duration := fun _ => 1,
    archiveOk := true }

/-- The first manifest written by the all-success local run. -/
def manifestAllOk : Manifest :=
  ((collect_bundle argsLocal envAllOk).manifestWrites).headD default

/-- The local argument set with an out-of-range `--port-ssh`. -/
def argsPortZero : Args :=
  { argsLocal with port_ssh := 0 }

/-- The `check_res` of the include loop for one path. -/
abbrev probeResult (args : Args) (env : Env) (path : String) : CmdResult :=
  run_target args env (probe_command path) 20

/-- The `cat_res` of the include loop for one path. -/
abbrev fetchResult (args : Args) (env : Env) (path : String) : CmdResult :=
  run_target args env (fetch_command path) 30

/-- The `state` value of the include loop for one path:
`(check_res.stdout.strip() or "UNKNOWN").splitlines()[0]`. -/
abbrev probeState (args : Args) (env : Env) (path : String) : String :=
  firstLine (if pyStrip (probeResult args env path).stdout ≠ ""
    then pyStrip (probeResult args env path).stdout else "UNKNOWN")

/-! ## Character-class lemmas -/

theorem safeShellChar_facts {c : Char} (h : isSafeShellChar c = true) :
    c ≠ ' ' ∧ c ≠ '\t' ∧ c ≠ '\'' ∧ c ≠ '"' := by
  refine ⟨?_, ?_, ?_, ?_⟩ <;> rintro rfl <;> exact absurd h (by decide)

theorem lineBreak_isPySpace {c : Char} (h : isLineBreak c = true) : isPySpace c = true := by
  simp only [isLineBreak, Bool.or_eq_true, decide_eq_true_eq] at h
  simp only [isPySpace, Bool.or_eq_true, Bool.and_eq_true, decide_eq_true_eq]
  omega

theorem wordChar_not_space {c : Char} (h : isWordChar c = true) : ¬ isPySpace c = true := by
  intro hs
  simp only [isWordChar, Bool.or_eq_true, Bool.and_eq_true, decide_eq_true_eq] at h
  simp only [isPySpace, Bool.or_eq_true, Bool.and_eq_true, decide_eq_true_eq] at hs
  omega

theorem wordChar_ne_slash {c : Char} (h : isWordChar c = true) : c ≠ '/' := by
  rintro rfl; exact absurd h (by decide)

/-! ## Correctness of `shlex.quote` against the word lexer -/

theorem lexAux_safe {cs : List Char} (h : cs.all isSafeShellChar = true) :
    ∀ acc words, lexAux cs .norm acc true words = some (words ++ [String.mk (acc ++ cs)]) := by
  induction cs with
  | nil => intro acc words; simp [lexAux]
  | cons c rest ih =>
    intro acc words
    simp only [List.all_cons, Bool.and_eq_true] at h
    obtain ⟨h1, h2, h3, h4⟩ := safeShellChar_facts h.1
    rw [show lexAux (c :: rest) .norm acc true words
        = lexAux rest .norm (acc ++ [c]) true words from by
      simp [lexAux, h1, h2, h3, h4, h.1]]
    rw [ih h.2]
    simp

theorem lexAux_sq_block (cs : List Char) :
    ∀ rest acc words,
      lexAux ((cs.map quoteRepl).flatten ++ rest) .sq acc true words
        = lexAux rest .sq (acc ++ cs) true words := by
  induction cs with
  | nil => intro rest acc words; simp
  | cons c cs' ih =>
    intro rest acc words
    by_cases hc : c = '\''
    · subst hc
      rw [show ((('\'' :: cs').map quoteRepl).flatten ++ rest)
          = '\'' :: '"' :: '\'' :: '"' :: '\'' :: ((cs'.map quoteRepl).flatten ++ rest) from by
        simp [quoteRepl]]
      rw [show lexAux
            ('\'' :: '"' :: '\'' :: '"' :: '\'' :: ((cs'.map quoteRepl).flatten ++ rest))
            .sq acc true words
          = lexAux ((cs'.map quoteRepl).flatten ++ rest) .sq (acc ++ ['\'']) true words from by
        simp [lexAux]]
      rw [ih]
      simp
    · rw [show (((c :: cs').map quoteRepl).flatten ++ rest)
          = c :: ((cs'.map quoteRepl).flatten ++ rest) from by
        simp [quoteRepl, hc]]
      rw [show lexAux (c :: ((cs'.map quoteRepl).flatten ++ rest)) .sq acc true words
          = lexAux ((cs'.map quoteRepl).flatten ++ rest) .sq (acc ++ [c]) true words from by
        simp [lexAux, hc]]
      rw [ih]
      simp

theorem shlexQuote_lexes (s : String) : shellLex (shlexQuote s) = some [s] := by
  by_cases hs : s = ""
  · subst hs; rfl
  · have hd : s.data ≠ [] := by cases s with | mk l => simpa [String.ext_iff] using hs
    by_cases hsafe : s.data.all isSafeShellChar = true
    · rw [show shlexQuote s = s from by simp [shlexQuote, hs, hsafe]]
      obtain ⟨c, rest, hcr⟩ : ∃ c rest, s.data = c :: rest := by
        cases h : s.data with
        | nil => exact absurd h hd
        | cons c rest => exact ⟨c, rest, rfl⟩
      have hall := hsafe
      rw [hcr] at hall
      simp only [List.all_cons, Bool.and_eq_true] at hall
      obtain ⟨h1, h2, h3, h4⟩ := safeShellChar_facts hall.1
      unfold shellLex
      rw [hcr]
      rw [show lexAux (c :: rest) .norm [] false []
          = lexAux rest .norm [c] true [] from by simp [lexAux, h1, h2, h3, h4, hall.1]]
      rw [lexAux_safe hall.2]
      have hmk : String.mk (c :: rest) = s := by rw [← hcr]
      simp [hmk]
    · rw [show shlexQuote s = "'" ++ String.mk ((s.data.map quoteRepl).flatten) ++ "'" from by
        simp [shlexQuote, hs, hsafe]]
      unfold shellLex
      rw [show ("'" ++ String.mk ((s.data.map quoteRepl).flatten) ++ "'").data
          = '\'' :: ((s.data.map quoteRepl).flatten ++ ['\'']) from by
        simp [String.data_append]]
      rw [show lexAux ('\'' :: ((s.data.map quoteRepl).flatten ++ ['\''])) .norm [] false []
          = lexAux ((s.data.map quoteRepl).flatten ++ ['\'']) .sq [] true [] from by
        simp [lexAux]]
      rw [lexAux_sq_block]
      simp [lexAux]

/-! ## List and python-string helper lemmas -/

theorem dropWhile_id_of_all {p : Char → Bool} {cs : List Char}
    (h : ∀ c ∈ cs, p c = false) : cs.dropWhile p = cs := by
  cases cs with
  | nil => rfl
  | cons c r => simp [List.dropWhile_cons, h c (by simp)]

theorem dropWhile_head_not {p : Char → Bool} :
    ∀ {cs : List Char} {c : Char} {rest : List Char},
      cs.dropWhile p = c :: rest → p c = false := by
  intro cs
  induction cs with
  | nil => intro c rest h; simp at h
  | cons d ds ih =>
    intro c rest h
    by_cases hd : p d = true
    · rw [List.dropWhile_cons_of_pos hd] at h
      exact ih h
    · rw [List.dropWhile_cons_of_neg hd] at h
      obtain ⟨rfl, -⟩ := List.cons.inj h
      exact Bool.not_eq_true _ |>.mp hd

theorem flatten_singletons {cs : List Char} (h : ∀ c ∈ cs, c ≠ '/') :
    (cs.map (fun c => if c = '/' then ['_', '_'] else [c])).flatten = cs := by
  induction cs with
  | nil => rfl
  | cons c r ih =>
    simp only [List.map_cons, List.flatten_cons, if_neg (h c (by simp))]
    rw [ih (fun d hd => h d (by simp [hd]))]
    rfl

theorem pyStripList_id {cs : List Char} (h : ∀ c ∈ cs, isPySpace c = false) :
    pyStripList cs = cs := by
  unfold pyStripList
  rw [dropWhile_id_of_all h]
  rw [dropWhile_id_of_all (fun c hc => h c (List.mem_reverse.mp hc))]
  exact List.reverse_reverse cs

theorem pyStripList_head {cs : List Char} {c : Char} {rest : List Char}
    (h : pyStripList cs = c :: rest) : isPySpace c = false := by
  unfold pyStripList at h
  have hsuff : (cs.dropWhile isPySpace).reverse.dropWhile isPySpace
      <:+ (cs.dropWhile isPySpace).reverse := List.dropWhile_suffix _
  have hpre : ((cs.dropWhile isPySpace).reverse.dropWhile isPySpace).reverse
      <+: cs.dropWhile isPySpace := by
    have h2 := List.reverse_prefix.mpr hsuff
    simpa using h2
  obtain ⟨t, ht⟩ := hpre
  rw [h] at ht
  exact dropWhile_head_not ht.symm

theorem pyOr_ne_empty {a b : String} (hb : b ≠ "") : pyOr a b ≠ "" := by
  unfold pyOr
  split
  · exact hb
  · assumption

theorem pyLower_ne_empty {s : String} (h : s ≠ "") : pyLower s ≠ "" := by
  cases s with
  | mk l =>
    cases l with
    | nil => exact absurd rfl h
    | cons c r => simp [pyLower, String.ext_iff]

theorem firstLine_ne_empty {s : String} {c : Char} {rest : List Char}
    (hdata : s.data = c :: rest) (hc : isPySpace c = false) : firstLine s ≠ "" := by
  unfold firstLine
  rw [hdata]
  have hlb : isLineBreak c = false := by
    cases hb : isLineBreak c
    · rfl
    · exact absurd (lineBreak_isPySpace hb) (by simp [hc])
  simp [List.takeWhile_cons, hlb, String.ext_iff]

theorem firstLine_pyStrip_ne {s : String} (h : pyStrip s ≠ "") :
    firstLine (pyStrip s) ≠ "" := by
  cases hl : pyStripList s.data with
  | nil => exact absurd (show pyStrip s = "" by simp [pyStrip, hl]) h
  | cons c rest =>
    exact firstLine_ne_empty (show (pyStrip s).data = c :: rest from hl) (pyStripList_head hl)

/-! ## Sanitization lemmas -/

theorem collapseUnsafe_true_eq (cs : List Char) :
    collapseUnsafe cs true = collapseUnsafe (cs.dropWhile (fun d => !isWordChar d)) false := by
  induction cs with
  | nil => rfl
  | cons c rest ih =>
    by_cases hc : isWordChar c = true
    · simp [collapseUnsafe, List.dropWhile_cons, hc]
    · simp [collapseUnsafe, List.dropWhile_cons, hc, ih]

theorem collapseRuns_nil : collapseRuns [] = [] := by
  simp [collapseRuns]

theorem collapseRuns_cons (c : Char) (rest : List Char) :
    collapseRuns (c :: rest) =
      if isWordChar c then c :: collapseRuns rest
      else '_' :: collapseRuns (rest.dropWhile (fun d => !isWordChar d)) := by
  simp [collapseRuns]

theorem collapseRuns_eq_aux :
    ∀ n (cs : List Char), cs.length ≤ n → collapseRuns cs = collapseUnsafe cs false := by
  intro n
  induction n with
  | zero =>
    intro cs hlen
    rw [List.length_eq_zero.mp (Nat.le_zero.mp hlen)]
    rw [collapseRuns_nil]
    rfl
  | succ n ih =>
    intro cs hlen
    cases cs with
    | nil => rw [collapseRuns_nil]; rfl
    | cons c rest =>
      rw [collapseRuns_cons]
      by_cases hc : isWordChar c = true
      · rw [if_pos hc]
        rw [ih rest (by simpa using Nat.succ_le_succ_iff.mp hlen)]
        simp [collapseUnsafe, hc]
      · rw [if_neg (by simp [hc])]
        rw [ih _ (le_trans (List.dropWhile_sublist _).length_le
          (by simpa using Nat.succ_le_succ_iff.mp hlen))]
        rw [← collapseUnsafe_true_eq]
        simp [collapseUnsafe, hc]

theorem collapseRuns_eq (cs : List Char) : collapseRuns cs = collapseUnsafe cs false := by
  exact collapseRuns_eq_aux cs.length cs le_rfl

theorem collapseUnsafe_mem_word :
    ∀ (cs : List Char) (b : Bool), ∀ c ∈ collapseUnsafe cs b, isWordChar c = true := by
  intro cs
  induction cs with
  | nil => intro b c hc; simp [collapseUnsafe] at hc
  | cons d rest ih =>
    intro b c hc
    by_cases hd : isWordChar d = true
    · simp only [collapseUnsafe, if_pos hd, List.mem_cons] at hc
      rcases hc with rfl | hc
      · exact hd
      · exact ih false c hc
    · cases b with
      | true =>
        simp only [collapseUnsafe, if_neg hd, if_pos rfl] at hc
        exact ih true c hc
      | false =>
        simp only [collapseUnsafe, if_neg hd] at hc
        simp only [Bool.false_eq_true, if_false, List.mem_cons] at hc
        rcases hc with rfl | hc
        · decide
        · exact ih true c hc

theorem collapseUnsafe_id {cs : List Char} (h : ∀ c ∈ cs, isWordChar c = true) :
    collapseUnsafe cs false = cs := by
  induction cs with
  | nil => rfl
  | cons c rest ih =>
    simp only [collapseUnsafe, if_pos (h c (by simp))]
    rw [ih (fun d hd => h d (by simp [hd]))]

theorem safe_file_name_eq_amended (s : String) :
    safe_file_name s = safe_file_name_amended s := by
  simp only [safe_file_name, safe_file_name_amended, collapseRuns_eq]

theorem safe_file_name_chars (s : String) :
    ∀ c ∈ (safe_file_name s).data, isWordChar c = true := by
  intro c hc
  simp only [safe_file_name] at hc
  split at hc
  · exact (by decide : ∀ c ∈ ("unknown_path" : String).data, isWordChar c = true) c hc
  · exact collapseUnsafe_mem_word _ false c hc

theorem safe_file_name_ne_empty (s : String) : safe_file_name s ≠ "" := by
  simp only [safe_file_name]
  split
  · decide
  · next h =>
    intro hmk
    have : collapseUnsafe
        ((((pyStripList s.data).dropWhile (· = '/')).map
          (fun c => if c = '/' then ['_', '_'] else [c])).flatten) false = [] := by
      simpa [String.ext_iff] using hmk
    simp [this] at h

theorem safe_file_name_fixed {t : String}
    (h : ∀ c ∈ t.data, isWordChar c = true) (hne : t.data ≠ []) :
    safe_file_name t = t := by
  simp only [safe_file_name]
  rw [pyStripList_id (fun c hc => Bool.not_eq_true _ |>.mp (wordChar_not_space (h c hc)))]
  rw [dropWhile_id_of_all (fun c hc => by
    simpa using wordChar_ne_slash (h c hc))]
  rw [flatten_singletons (fun c hc => wordChar_ne_slash (h c hc))]
  rw [collapseUnsafe_id h]
  rw [if_neg (by simpa using hne)]

theorem safe_file_name_idem (s : String) :
    safe_file_name (safe_file_name s) = safe_file_name s := by
  by_cases hcase : (safe_file_name s).data = []
  · exact absurd (by cases hmk : safe_file_name s; simp_all [String.ext_iff])
      (safe_file_name_ne_empty s)
  · exact safe_file_name_fixed (safe_file_name_chars s) hcase

/-! ## Include-processing lemmas -/

theorem process_include_path (args : Args) (env : Env) (p : String) :
    (process_include args env p).item.path = p := by
  simp only [process_include]
  split
  all_goals try split
  all_goals try split
  all_goals try split
  all_goals rfl

theorem process_include_dichotomy (args : Args) (env : Env) (p : String) :
    ((process_include args env p).item.collected = true
        ∧ (process_include args env p).item.reason = "")
    ∨ ((process_include args env p).item.collected = false
        ∧ (process_include args env p).item.reason ≠ "") := by
  simp only [process_include]
  by_cases hs : pyStrip (run_target args env (probe_command p) 20).stdout = ""
  · rw [if_neg (not_not_intro hs)]
    rw [show firstLine "UNKNOWN" = "UNKNOWN" from rfl]
    rw [if_pos (Or.inr rfl)]
    right
    exact ⟨rfl, pyOr_ne_empty (by decide)⟩
  · rw [if_pos hs]
    split
    · right
      exact ⟨rfl, pyOr_ne_empty (by decide)⟩
    · split
      · right
        exact ⟨rfl, pyLower_ne_empty (firstLine_pyStrip_ne hs)⟩
      · split
        · right
          exact ⟨rfl, pyOr_ne_empty (by decide)⟩
        · left
          exact ⟨rfl, rfl⟩

theorem map_process_include_paths (args : Args) (env : Env) (ps : List String) :
    ((ps.map (process_include args env)).map (fun st => st.item)).map
        (fun it => it.path) = ps := by
  induction ps with
  | nil => rfl
  | cons p rest ih =>
    simp only [List.map_map] at ih
    simp [List.map_map, Function.comp, process_include_path]
    simpa [Function.comp] using ih

theorem include_items_paths (args : Args) (env : Env) :
    ((include_steps args env).map (fun st => st.item)).map (fun it => it.path)
      = include_paths args.include_arg := by
  unfold include_steps
  exact map_process_include_paths args env _

/-! ## Run-level lemmas -/

theorem any_failures_false_iff (args : Args) (env : Env) :
    run_any_failures args env = false ↔
      (allCommandsOk (run_manifest args env) ∧ allFilesCollected (run_manifest args env)) := by
  unfold run_any_failures run_manifest allCommandsOk allFilesCollected command_summaries
  simp only [Bool.or_eq_false_iff, List.any_eq_false, List.mem_map]
  constructor
  · rintro ⟨hcmd, hinc⟩
    constructor
    · rintro c ⟨t, ht, rfl⟩
      have := hcmd t ht
      simpa using this
    · rintro f ⟨st, hst, rfl⟩
      have := hinc st hst
      simpa using this
  · rintro ⟨hcmd, hinc⟩
    constructor
    · intro t ht
      have := hcmd _ ⟨t, ht, rfl⟩
      simpa using this
    · intro st hst
      have := hinc _ ⟨st, hst, rfl⟩
      simpa using this

theorem run_manifest_status (args : Args) (env : Env) :
    (run_manifest args env).overall_status
      = if run_any_failures args env then "partial" else "ok" := rfl

theorem run_manifest_ok_iff (args : Args) (env : Env) :
    (run_manifest args env).overall_status = "ok" ↔
      (allCommandsOk (run_manifest args env) ∧ allFilesCollected (run_manifest args env)) := by
  rw [run_manifest_status]
  cases h : run_any_failures args env
  · simpa using (any_failures_false_iff args env).mp h
  · have hn : ¬(allCommandsOk (run_manifest args env)
        ∧ allFilesCollected (run_manifest args env)) := by
      intro hc
      have := (any_failures_false_iff args env).mpr hc
      rw [h] at this
      exact Bool.true_eq_false.mp this
    simp only [if_true]
    constructor
    · intro habs
      exact absurd habs (by decide)
    · intro hrhs
      exact absurd hrhs hn

theorem collect_bundle_completed (args : Args) (env : Env)
    (h : (collect_bundle args env).manifestWrites ≠ []) :
    (collect_bundle args env).manifestWrites
        = (if env.archiveOk then [run_manifest args env]
           else [run_manifest args env,
                 { run_manifest args env with overall_status := "error" }])
    ∧ (collect_bundle args env).archiveCreated = env.archiveOk
    ∧ (collect_bundle args env).exit
        = (if env.archiveOk then (if run_any_failures args env then 1 else 0) else 2) := by
  by_cases c1 : args.mode = "ssh" ∧ args.host = ""
  · exact absurd (by simp [collect_bundle, c1, bailOutcome]) h
  by_cases c2 : args.mode = "ssh" ∧ (check_ssh_connectivity env).1 = false
  · have hh : ¬(args.host = "") := fun hh => c1 ⟨c2.1, hh⟩
    exact absurd (by simp [collect_bundle, c2.1, c2.2, hh, bailOutcome]) h
  by_cases c3 : env.layoutOk = false
  · exact absurd (by simp [collect_bundle, c1, c2, c3, bailOutcome]) h
  by_cases c4 : env.archiveOk
  · simp [collect_bundle, c1, c2, c3, c4]
  · simp [collect_bundle, c1, c2, c3, c4]

theorem collect_bundle_fatal_exit (args : Args) (env : Env)
    (h : (args.mode = "ssh" ∧ args.host = "")
        ∨ (args.mode = "ssh" ∧ (check_ssh_connectivity env).1 = false)
        ∨ env.layoutOk = false
        ∨ env.archiveOk = false) :
    (collect_bundle args env).exit = 2 := by
  by_cases c1 : args.mode = "ssh" ∧ args.host = ""
  · simp [collect_bundle, c1, bailOutcome]
  by_cases c2 : args.mode = "ssh" ∧ (check_ssh_connectivity env).1 = false
  · have hh : ¬(args.host = "") := fun hh => c1 ⟨c2.1, hh⟩
    simp [collect_bundle, c2.1, c2.2, hh, bailOutcome]
  by_cases c3 : env.layoutOk = false
  · simp [collect_bundle, c1, c2, c3, bailOutcome]
  · have c4 : env.archiveOk = false := by tauto
    simp [collect_bundle, c1, c2, c3, c4]

theorem main_model_fatal_exit (args : Args) (env : Env)
    (h : (args.mode = "ssh" ∧ args.host = "")
        ∨ (args.mode = "ssh" ∧ (check_ssh_connectivity env).1 = false)
        ∨ env.layoutOk = false
        ∨ env.archiveOk = false) :
    (main_model args env).exit = 2 := by
  unfold main_model
  split
  · simp [bailOutcome]
  · exact collect_bundle_fatal_exit args env h

/-! ## Claim theorems -/

/-- C3: for every command execution that exceeds its timeout,
`run_target` returns a result with exit code 124, preserves the
partially captured stdout, and appends the note `Timed out after <N>s`
(on a fresh line) to the captured stderr; being a total function, it
raises nothing. -/
theorem C3_timeout_result (args : Args) (env : Env) (cmd : String) (t : Nat)
    (out err : Option String)
    (h : env.exec (full_command args cmd) t = .timedOut out err) :
    (run_target args env cmd t).returncode = 124
    ∧ (run_target args env cmd t).stdout = as_text out
    ∧ (run_target args env cmd t).stderr
        = as_text err ++ "\nTimed out after " ++ toString t ++ "s" := by
  simp [run_target, h]

/-- Witness for C3: a concrete timed-out execution. -/
theorem C3_timeout_result_witness :
    envTimeout.exec (full_command argsLocal "uptime") 60
        = .timedOut (some "partial out") (some "partial err")
    ∧ ((run_target argsLocal envTimeout "uptime" 60).returncode = 124
       ∧ (run_target argsLocal envTimeout "uptime" 60).stdout = as_text (some "partial out")
       ∧ (run_target argsLocal envTimeout "uptime" 60).stderr
           = as_text (some "partial err") ++ "\nTimed out after " ++ toString 60 ++ "s") :=
  ⟨rfl, C3_timeout_result argsLocal envTimeout "uptime" 60 (some "partial out")
    (some "partial err") rfl⟩

/-- C5: the command catalog is a pure function of `(service, since)`
(`build_commands` is deterministic by construction); it consists of
exactly 9 unconditional entries, and a non-empty service name appends
exactly the 3 service-scoped entries (journal, status, show) after the
unconditional set, in that order, never interleaved. -/
theorem C5_catalog_shape (service since : String) :
    (build_commands "" since).length = 9
    ∧ build_commands service since
        = build_commands "" since ++
          (if service = "" then [] else
            [("journal_service",
              "journalctl -u " ++ shlexQuote service ++ " --since "
                ++ shlexQuote since ++ " --no-pager"),
             ("systemctl_status",
              "systemctl status " ++ shlexQuote service ++ " --no-pager"),
             ("systemctl_show",
              "systemctl show " ++ shlexQuote service
                ++ " -p ActiveState,SubState,ExecMainStatus,ExecMainStartTimestamp")])
    ∧ (build_commands service since).map Prod.fst
        = ["hostnamectl", "date_iso", "uptime", "journal_errors", "dmesg_tail",
           "ss_tulpen", "df_h", "df_i", "free_m"]
          ++ (if service = "" then []
              else ["journal_service", "systemctl_status", "systemctl_show"]) := by
  refine ⟨rfl, ?_, ?_⟩
  · by_cases h : service = "" <;> simp [build_commands, h]
  · by_cases h : service = "" <;> simp [build_commands, h]

/-- C6: every externally supplied token embedded in command text — the
lookback window and service name in catalog entries, and the include
path in the probe and fetch commands — occurs only as `shlexQuote` of
the token, and `shlexQuote` output always re-lexes (under the
conservative POSIX word lexer, which rejects any live shell syntax) as
exactly one word whose value is the original token. -/
theorem C6_shell_escaping (service since path : String) :
    shellLex (shlexQuote since) = some [since]
    ∧ shellLex (shlexQuote service) = some [service]
    ∧ shellLex (shlexQuote path) = some [path]
    ∧ probe_command path
        = "if [ -e " ++ shlexQuote path ++ " ]; then if [ -r " ++ shlexQuote path
          ++ " ]; then echo READABLE; else echo UNREADABLE; fi; else echo MISSING; fi"
    ∧ fetch_command path = "cat " ++ shlexQuote path
    ∧ (build_commands service since).map Prod.snd
        = ["hostnamectl", "date -Is", "uptime",
           "journalctl -p err --since " ++ shlexQuote since ++ " --no-pager",
           "dmesg -T | tail -n 400", "ss -tulpen", "df -h", "df -i", "free -m"]
          ++ (if service = "" then [] else
              ["journalctl -u " ++ shlexQuote service ++ " --since "
                ++ shlexQuote since ++ " --no-pager",
               "systemctl status " ++ shlexQuote service ++ " --no-pager",
               "systemctl show " ++ shlexQuote service
                ++ " -p ActiveState,SubState,ExecMainStatus,ExecMainStartTimestamp"]) := by
  refine ⟨shlexQuote_lexes since, shlexQuote_lexes service, shlexQuote_lexes path,
    ?_, rfl, ?_⟩
  · simp [probe_command, String.append_assoc]
  · by_cases h : service = "" <;> simp [build_commands, h]

/-- C7 counterexample: the code strips every leading separator (not a
single one), strips surrounding whitespace first, and collapses each
run of characters outside `[A-Za-z0-9_.-]` to a single underscore
(not one underscore per character); the claim's algorithm disagrees on
`//x`, `a!!b`, and ` x`. -/
theorem C7_sanitization_counterexample :
    safe_file_name "//x" = "x" ∧ safe_file_name_claim "//x" = "__x"
    ∧ safe_file_name "a!!b" = "a_b" ∧ safe_file_name_claim "a!!b" = "a__b"
    ∧ safe_file_name " x" = "x" ∧ safe_file_name_claim " x" = "_x"
    ∧ safe_file_name "//x" ≠ safe_file_name_claim "//x"
    ∧ safe_file_name "a!!b" ≠ safe_file_name_claim "a!!b"
    ∧ safe_file_name " x" ≠ safe_file_name_claim " x" := by
  decide

/-- C7 amended: for every requested path string, the sanitization
function computes its result by trimming surrounding whitespace,
stripping every leading path separator, replacing each remaining path
separator with a double underscore, then replacing each maximal run of
characters outside `[A-Za-z0-9_.-]` with a single underscore, and
returning the fixed placeholder name when the result is empty. -/
theorem C7_sanitization_amended (s : String) :
    safe_file_name s = safe_file_name_amended s :=
  safe_file_name_eq_amended s

/-- C8: the sanitization function is idempotent, its output never
contains a path separator and is never empty, and the two stated
absolute paths sanitize to distinct names. -/
theorem C8_sanitization_algebra :
    (∀ s : String, safe_file_name (safe_file_name s) = safe_file_name s)
    ∧ (∀ s : String, '/' ∉ (safe_file_name s).data ∧ safe_file_name s ≠ "")
    ∧ safe_file_name "/var/log/app.log" ≠ safe_file_name "/etc/app.log" := by
  refine ⟨safe_file_name_idem, fun s => ⟨?_, safe_file_name_ne_empty s⟩, by decide⟩
  intro hm
  exact absurd (safe_file_name_chars s '/' hm) (by decide)

/-- C1: for every run that reaches manifest writing, the first manifest
written has `overall_status` `"ok"` iff every executed catalog command
returned exit code 0 and every requested include-file was collected,
and `"partial"` otherwise; and if archive creation then fails, the
manifest is rewritten in place with `overall_status` forced to
`"error"`. -/
theorem C1_overall_status (args : Args) (env : Env)
    (h : (collect_bundle args env).manifestWrites ≠ []) :
    (((collect_bundle args env).manifestWrites.headD default).overall_status = "ok"
        ↔ allCommandsOk ((collect_bundle args env).manifestWrites.headD default)
          ∧ allFilesCollected ((collect_bundle args env).manifestWrites.headD default))
    ∧ (((collect_bundle args env).manifestWrites.headD default).overall_status = "ok"
        ∨ ((collect_bundle args env).manifestWrites.headD default).overall_status = "partial")
    ∧ ((collect_bundle args env).archiveCreated = false →
        (collect_bundle args env).manifestWrites
          = [(collect_bundle args env).manifestWrites.headD default,
             { (collect_bundle args env).manifestWrites.headD default with
                overall_status := "error" }]) := by
  obtain ⟨hw, ha, -⟩ := collect_bundle_completed args env h
  have hhead : (collect_bundle args env).manifestWrites.headD default
      = run_manifest args env := by
    rw [hw]; cases env.archiveOk <;> simp
  rw [hhead, hw, ha]
  refine ⟨run_manifest_ok_iff args env, ?_, ?_⟩
  · rw [run_manifest_status]
    cases run_any_failures args env <;> simp
  · intro harch
    rw [harch]
    simp

/-- Witness for C1: the all-success local run writes one manifest with
status `"ok"`. -/
theorem C1_overall_status_witness :
    ((collect_bundle argsLocal envAllOk).manifestWrites ≠ [])
    ∧ ((manifestAllOk.overall_status = "ok"
          ↔ allCommandsOk manifestAllOk ∧ allFilesCollected manifestAllOk)
       ∧ (manifestAllOk.overall_status = "ok" ∨ manifestAllOk.overall_status = "partial")
       ∧ ((collect_bundle argsLocal envAllOk).archiveCreated = false →
            (collect_bundle argsLocal envAllOk).manifestWrites
              = [manifestAllOk, { manifestAllOk with overall_status := "error" }])) :=
  ⟨by decide, C1_overall_status argsLocal envAllOk (by decide)⟩

/-- C2: the program's exit code is 0 when every command succeeded,
every include-file was collected, and packaging succeeded; 1 when at
least one command or file failed but packaging succeeded; and 2 for
each fatal pre-run or packaging error: missing `--host` in ssh mode,
failed connectivity probe, bundle-layout creation failure (collision or
other error), or archive-creation failure. -/
theorem C2_exit_codes (args : Args) (env : Env) :
    ((main_model args env).archiveCreated = true →
      ∀ m, (main_model args env).manifestWrites.head? = some m →
        ((allCommandsOk m ∧ allFilesCollected m) → (main_model args env).exit = 0)
        ∧ (¬(allCommandsOk m ∧ allFilesCollected m) → (main_model args env).exit = 1))
    ∧ ((args.mode = "ssh" ∧ args.host = "") → (main_model args env).exit = 2)
    ∧ ((args.mode = "ssh" ∧ (check_ssh_connectivity env).1 = false) →
        (main_model args env).exit = 2)
    ∧ (env.layoutOk = false → (main_model args env).exit = 2)
    ∧ (env.archiveOk = false → (main_model args env).exit = 2) := by
  refine ⟨?_, fun hc => main_model_fatal_exit args env (Or.inl hc),
    fun hc => main_model_fatal_exit args env (Or.inr (Or.inl hc)),
    fun hc => main_model_fatal_exit args env (Or.inr (Or.inr (Or.inl hc))),
    fun hc => main_model_fatal_exit args env (Or.inr (Or.inr (Or.inr hc)))⟩
  intro harch m hm
  by_cases hport : args.port_ssh < 1 ∨ args.port_ssh > 65535
  · rw [main_model, if_pos hport] at harch
    exact absurd harch (by simp [bailOutcome])
  · rw [main_model, if_neg hport] at harch hm ⊢
    have hne : (collect_bundle args env).manifestWrites ≠ [] := by
      intro h0
      rw [h0] at hm
      exact Option.noConfusion hm
    obtain ⟨hw, ha, he⟩ := collect_bundle_completed args env hne
    have h4 : env.archiveOk = true := by rw [← ha]; exact harch
    have hm' : m = run_manifest args env := by
      rw [hw, h4] at hm
      simpa using hm.symm
    subst hm'
    constructor
    · intro hok
      rw [he, h4]
      have := (any_failures_false_iff args env).mpr hok
      simp [this]
    · intro hnok
      rw [he, h4]
      cases hf : run_any_failures args env
      · exact absurd ((any_failures_false_iff args env).mp hf) hnok
      · simp

/-- Witness for C2: the all-success local run exits 0. -/
theorem C2_exit_codes_witness : (main_model argsLocal envAllOk).exit = 0 := by
  have h := (C2_exit_codes argsLocal envAllOk).1 (by decide) manifestAllOk (by decide)
  exact h.1 (by decide)

/-- C4 counterexample: a probe that exits 0 and prints the unrecognized
state word `GARBAGE` falls under the claim's unrecognized-state rule
(reason = probe stderr, here empty, so `"cannot inspect file"`), but
the code records the lowercased state word `"garbage"` instead. -/
theorem C4_probe_dispatch_counterexample :
    (probeResult argsLocal envGarbageProbe "/etc/hostname").returncode = 0
    ∧ (probeResult argsLocal envGarbageProbe "/etc/hostname").stdout = "GARBAGE\n"
    ∧ (probeResult argsLocal envGarbageProbe "/etc/hostname").stderr = ""
    ∧ probeState argsLocal envGarbageProbe "/etc/hostname" = "GARBAGE"
    ∧ (process_include argsLocal envGarbageProbe "/etc/hostname").item.collected = false
    ∧ (process_include argsLocal envGarbageProbe "/etc/hostname").item.reason = "garbage"
    ∧ (process_include argsLocal envGarbageProbe "/etc/hostname").item.reason
        ≠ "cannot inspect file" := by
  decide

/-- C4 amended: the recorded outcome follows the probe exactly as the
code dispatches it: a non-zero probe exit, or a state of `UNKNOWN`
(the sentinel for empty probe stdout, or the literal first stdout
line), yields an uncollected outcome whose reason is the probe's
stripped stderr or `"cannot inspect file"`; any other state that is
not `READABLE` — including `MISSING` and `UNREADABLE` — yields an
uncollected outcome whose reason is the lowercased state word; state
`READABLE` triggers the fetch, whose non-zero exit yields an
uncollected outcome with reason its stripped stderr or `"cat failed"`,
and whose zero exit writes the contents to `files/<sanitizedName>.txt`
and marks the path collected. -/
theorem C4_probe_dispatch (args : Args) (env : Env) (path : String) :
    (((probeResult args env path).returncode ≠ 0
        ∨ probeState args env path = "UNKNOWN") →
      (process_include args env path).item
          = { path := path, collected := false,
              reason := pyOr (pyStrip (probeResult args env path).stderr)
                "cannot inspect file" }
      ∧ (process_include args env path).artifact = none)
    ∧ (((probeResult args env path).returncode = 0
        ∧ probeState args env path ≠ "UNKNOWN"
        ∧ probeState args env path ≠ "READABLE") →
      (process_include args env path).item
          = { path := path, collected := false,
              reason := pyLower (probeState args env path) }
      ∧ (process_include args env path).artifact = none)
    ∧ (((probeResult args env path).returncode = 0
        ∧ probeState args env path = "READABLE") →
      ((fetchResult args env path).returncode ≠ 0 →
        (process_include args env path).item
            = { path := path, collected := false,
                reason := pyOr (pyStrip (fetchResult args env path).stderr) "cat failed" }
        ∧ (process_include args env path).artifact = none)
      ∧ ((fetchResult args env path).returncode = 0 →
        (process_include args env path).item
            = { path := path, collected := true, reason := "" }
        ∧ (process_include args env path).artifact
            = some (safe_file_name path ++ ".txt", (fetchResult args env path).stdout))) := by
  refine ⟨?_, ?_, ?_⟩
  · intro h
    simp only [process_include]
    rw [if_pos h]
    exact ⟨rfl, rfl⟩
  · intro h
    simp only [process_include]
    rw [if_neg (fun hd => hd.elim (fun hne => hne h.1) (fun heq => h.2.1 heq))]
    rw [if_pos h.2.2]
    exact ⟨rfl, rfl⟩
  · intro h
    have hnu : ¬((probeResult args env path).returncode ≠ 0
        ∨ probeState args env path = "UNKNOWN") := by
      rintro (hne | heq)
      · exact hne h.1
      · rw [h.2] at heq
        exact absurd heq (by decide)
    constructor
    · intro hf
      simp only [process_include]
      rw [if_neg hnu, if_neg (not_not_intro h.2), if_pos hf]
      exact ⟨rfl, rfl⟩
    · intro hf
      simp only [process_include]
      rw [if_neg hnu, if_neg (not_not_intro h.2), if_neg (not_not_intro hf)]
      exact ⟨rfl, rfl⟩

/-- Witness for C4: a probe reporting `MISSING` yields an uncollected
outcome with reason `"missing"`. -/
theorem C4_probe_dispatch_witness :
    ((probeResult argsLocal envMissingProbe "/etc/hostname").returncode = 0
      ∧ probeState argsLocal envMissingProbe "/etc/hostname" ≠ "UNKNOWN"
      ∧ probeState argsLocal envMissingProbe "/etc/hostname" ≠ "READABLE")
    ∧ ((process_include argsLocal envMissingProbe "/etc/hostname").item
        = { path := "/etc/hostname", collected := false,
            reason := pyLower (probeState argsLocal envMissingProbe "/etc/hostname") }
      ∧ (process_include argsLocal envMissingProbe "/etc/hostname").artifact = none)
    ∧ pyLower (probeState argsLocal envMissingProbe "/etc/hostname") = "missing" :=
  ⟨by decide,
   (C4_probe_dispatch argsLocal envMissingProbe "/etc/hostname").2.1 (by decide),
   by decide⟩

/-- C9: every include-file outcome record satisfies exactly one of
collected-with-empty-reason or uncollected-with-non-empty-reason, and
exactly one record is created per requested path, in list order. -/
theorem C9_include_outcomes (args : Args) (env : Env)
    (h : (collect_bundle args env).manifestWrites ≠ []) :
    (((collect_bundle args env).manifestWrites.headD default).included_files.map
        (fun it => it.path) = include_paths args.include_arg)
    ∧ (∀ it ∈ ((collect_bundle args env).manifestWrites.headD default).included_files,
        (it.collected = true ∧ it.reason = "")
        ∨ (it.collected = false ∧ it.reason ≠ "")) := by
  obtain ⟨hw, -, -⟩ := collect_bundle_completed args env h
  have hhead : (collect_bundle args env).manifestWrites.headD default
      = run_manifest args env := by
    rw [hw]; cases env.archiveOk <;> simp
  rw [hhead]
  constructor
  · exact include_items_paths args env
  · intro it hit
    have hit' : it ∈ (include_steps args env).map (fun st => st.item) := hit
    obtain ⟨st, hst, rfl⟩ := List.mem_map.mp hit'
    simp only [include_steps] at hst
    obtain ⟨p, -, rfl⟩ := List.mem_map.mp hst
    exact process_include_dichotomy args env p

/-- Witness for C9: the all-success local run records one collected
outcome for its one requested path. -/
theorem C9_include_outcomes_witness :
    ((collect_bundle argsLocal envAllOk).manifestWrites ≠ [])
    ∧ ((manifestAllOk.included_files.map (fun it => it.path)
          = include_paths argsLocal.include_arg)
       ∧ (∀ it ∈ manifestAllOk.included_files,
            (it.collected = true ∧ it.reason = "")
            ∨ (it.collected = false ∧ it.reason ≠ ""))) :=
  ⟨by decide, C9_include_outcomes argsLocal envAllOk (by decide)⟩

/-- C10: an out-of-range `--port-ssh` (below 1 or above 65535) makes
the program exit 2 before the connectivity check, before any command
execution, and before any directory creation, in every mode. -/
theorem C10_port_validation (args : Args) (env : Env)
    (h : args.port_ssh < 1 ∨ args.port_ssh > 65535) :
    (main_model args env).exit = 2
    ∧ (main_model args env).sshProbed = false
    ∧ (main_model args env).executed = []
    ∧ (main_model args env).layoutCreated = false
    ∧ (main_model args env).manifestWrites = []
    ∧ (main_model args env).artifacts = []
    ∧ (main_model args env).archiveCreated = false := by
  simp [main_model, h, bailOutcome]

/-- Witness for C10: port 0 is rejected with exit 2 and no effects. -/
theorem C10_port_validation_witness :
    (argsPortZero.port_ssh < 1 ∨ argsPortZero.port_ssh > 65535)
    ∧ ((main_model argsPortZero envAllOk).exit = 2
       ∧ (main_model argsPortZero envAllOk).sshProbed = false
       ∧ (main_model argsPortZero envAllOk).executed = []
       ∧ (main_model argsPortZero envAllOk).layoutCreated = false
       ∧ (main_model argsPortZero envAllOk).manifestWrites = []
       ∧ (main_model argsPortZero envAllOk).artifacts = []
       ∧ (main_model argsPortZero envAllOk).archiveCreated = false) :=
  ⟨by decide, C10_port_validation argsPortZero envAllOk (by decide)⟩

end IncidentBundle
